import Mathlib

/-!
A shallow embedding of the frame-presentation engine and cache-invalidation
protocol of the nIce-Game rendering runtime (src/window.rs and
src/batch/sprite.rs), together with theorems settling the specification
claims about it.

Modelling conventions:
* `Arc<ImageViewAccess>` handles are modelled as `Image` values carrying a
  unique allocation identity (`id`); `Arc::ptr_eq` is identity of `id`.
* A `Weak` reference is modelled as the referenced `Image` value together
  with an external liveness oracle (`live : Nat → Bool`): `upgrade`
  succeeds exactly when the oracle declares the allocation live.
* GPU futures (`GpuFuture` boxes) are modelled as the inductive `FutureChain`
  recording the DAG of join / cleanup / present / fence operations, as the
  spec describes them (ordering tokens, not callbacks).
* Fallible Vulkan calls are driven by environment oracles recording, per
  call site, whether the call succeeds or with which error variant it fails;
  `unwrap`/`expect`/`unreachable!`/failed `assert!`/out-of-bounds indexing
  are the `panic` outcome of the result type.
* Fresh GPU allocations (framebuffers, uniform buffers / descriptor sets)
  are stamped from an allocation counter threaded through the functions, so
  that "allocates a new framebuffer" is observable in the model.
-/

/-- One swapchain image, identified by allocation identity (`Arc` pointer
identity in the source), with its dimensions. -/
structure Image where
  id : Nat
  width : Nat
  height : Nat
deriving DecidableEq, Repr

/-- A swapchain handle (`Arc<Swapchain>`); only its identity matters here. -/
structure Swapchain where
  scId : Nat
deriving DecidableEq, Repr

/-- The DAG of pending asynchronous GPU work (`Box<GpuFuture>`), as built by
`Window::present` and `SpriteBatch::commands`: acquisition tokens, joins,
`cleanup_finished`, `then_swapchain_present`, `then_signal_fence_and_flush`
results, and upload futures from `ImmutableBuffer::from_data`. -/
inductive FutureChain where
  | acquireTok (n : Nat)
  | external (n : Nat)
  | uploadTok (n : Nat)
  | join (a b : FutureChain)
  | cleanup (a : FutureChain)
  | swapchainPresent (a : FutureChain) (scId imageNum : Nat)
  | fenceSignal (a : FutureChain)
deriving DecidableEq, Repr

/-- `vulkano::OomError`. -/
inductive OomError where
  | OutOfHostMemory
  | OutOfDeviceMemory
deriving DecidableEq, Repr

/-- `vulkano::memory::DeviceMemoryAllocError`; the source only ever
constructs the `OomError` variant (via `From<OomError>`), the rest are
collapsed into `Other`. -/
inductive DeviceMemoryAllocError where
  | OomError (e : OomError)
  | Other
deriving DecidableEq, Repr

/-- `SwapchainCreationError`: `UnsupportedDimensions` is handled,
every other variant hits `unreachable!`. -/
inductive SwapchainCreationError where
  | UnsupportedDimensions
  | Other
deriving DecidableEq, Repr

/-- `AcquireError`: `OutOfDate` is handled, every other variant hits
`unreachable!`. -/
inductive AcquireError where
  | OutOfDate
  | Other
deriving DecidableEq, Repr

/-- `FlushError`: `OutOfDate` is handled, every other variant hits
`unreachable!`. -/
inductive FlushError where
  | OutOfDate
  | Other
deriving DecidableEq, Repr

/-- The mutable state of `Window` relevant to presentation: the swapchain,
its image sequence, the pending future chain, and the resize flag (the
`Arc<AtomicBool>` shared with the events loop). Device/queue/surface
handles carry no presentation state and are omitted. -/
structure Window where
  swapchain : Swapchain
  images : List Image
  previousFrameEnd : Option FutureChain
  resized : Bool
deriving DecidableEq, Repr

/-- Result of `Window::present`, which has type
`Result<(), DeviceMemoryAllocError>` in the source: `ok` carries the
post-state, `err` the returned error (the body in fact never constructs
one), and `panic` stands for `expect`/`unwrap`/`unreachable!`. -/
inductive PResult where
  | ok (w : Window)
  | err (e : DeviceMemoryAllocError)
  | panic
deriving DecidableEq, Repr

/-- Per-call environment for `Window::present`: results of the fallible
device calls, in call order, plus the caller-supplied `get_commands`
closure (which receives `&mut Window` in the source and may therefore
mutate the window). `caps` is the `current_extent` field of a successful
capabilities query (`none` = the query itself failed, which `expect`s);
`innerSize` is `window.get_inner_size()` mapped to an extent. -/
structure PresentEnv where
  caps : Option (Option (Nat × Nat))
  innerSize : Option (Nat × Nat)
  recreate : Nat × Nat → Except SwapchainCreationError (Swapchain × List Image)
  acquire : Except AcquireError (Nat × FutureChain)
  getCommands : Window → Nat → FutureChain → Window × FutureChain
  flushResult : Option FlushError

/-- The chain handed to `get_commands`: the previous frame chain (if any)
after `cleanup_finished`, joined with the acquisition future. -/
def incomingChain (prev : Option FutureChain) (acquireFuture : FutureChain) : FutureChain :=
  match prev with
  | some f => .join (.cleanup f) acquireFuture
  | none => acquireFuture

/-- Step 1 of `Window::present` (src/window.rs lines 137-155): swap the
resize flag to false; if it was set, query the extent (note the argument of
`unwrap_or` is evaluated eagerly, so `get_inner_size().unwrap()` runs — and
can panic — even when `current_extent` is `Some`) and recreate the
swapchain. `inl` is an early return from `present`, `inr` the state in
which it continues. -/
def Window.recreateStep (w : Window) (env : PresentEnv) : PResult ⊕ Window :=
  if w.resized then
    let w1 : Window := { w with resized := false }
    match env.caps with
    | none => .inl .panic
    | some currentExtent =>
      match env.innerSize with
      | none => .inl .panic
      | some inner =>
        match env.recreate (currentExtent.getD inner) with
        | .error .UnsupportedDimensions => .inl (.ok { w1 with resized := true })
        | .error .Other => .inl .panic
        | .ok (sc, imgs) => .inr { w1 with swapchain := sc, images := imgs }
  else .inr w

/-- `Window::present` (src/window.rs lines 130-188). -/
def Window.present (w : Window) (env : PresentEnv) : PResult :=
  match w.recreateStep env with
  | .inl r => r
  | .inr w1 =>
    match env.acquire with
    | .error .OutOfDate => .ok { w1 with resized := true }
    | .error .Other => .panic
    | .ok (imageNum, acquireFuture) =>
      let chain := incomingChain w1.previousFrameEnd acquireFuture
      let w2 : Window := { w1 with previousFrameEnd := none }
      let (w3, chain2) := env.getCommands w2 imageNum chain
      let presented := FutureChain.swapchainPresent chain2 w3.swapchain.scId imageNum
      match env.flushResult with
      | none => .ok { w3 with previousFrameEnd := some (.fenceSignal presented) }
      | some .OutOfDate => .ok { w3 with resized := true }
      | some .Other => .panic

/-- `Window::join_future` (src/window.rs lines 122-128). -/
def Window.joinFuture (w : Window) (future : FutureChain) : Window :=
  match w.previousFrameEnd with
  | some prev => { w with previousFrameEnd := some (.join prev future) }
  | none => { w with previousFrameEnd := some future }

/-- `winit` window events as consumed by `EventsLoop::poll_events`
(src/window.rs lines 35-50): only `Closed` and `Resized` are acted on,
everything else passes through to the callback untouched. -/
inductive WEvent where
  | closed (windowId : Nat)
  | resized (windowId : Nat) (w h : Nat)
  | other (windowId : Nat) (n : Nat)
deriving DecidableEq, Repr

/-- The `resized: HashMap<WindowId, Arc<AtomicBool>>` table of `EventsLoop`,
modelled as an association list with unique keys (the flag value replaces
the `AtomicBool`). -/
abbrev ResizeTable := List (Nat × Bool)

/-- Processing of one event inside the `poll_events` closure: `Closed`
removes the entry for the event's window id (`HashMap::remove`; keys are
unique, so filtering the key out is removal); `Resized` stores `true`
through the `Index` impl of `HashMap`, which panics (`none`) when the key
is absent; other events are untouched. The callback receives the event in
every non-panicking case and cannot reach the table, so it is not
modelled. -/
def pollStep (t : ResizeTable) (e : WEvent) : Option ResizeTable :=
  match e with
  | .closed wid => some (List.filter (fun p => p.1 != wid) t)
  | .resized wid _ _ =>
    match List.lookup wid t with
    | some _ => some (List.map (fun p => if p.1 == wid then (p.1, true) else p) t)
    | none => none
  | .other _ _ => some t

/-- `EventsLoop::poll_events` over the queue of pending events; `none` is a
panic escaping the closure. -/
def pollEvents (t : ResizeTable) : List WEvent → Option ResizeTable
  | [] => some t
  | e :: rest =>
    match pollStep t e with
    | some t1 => pollEvents t1 rest
    | none => none

/-- Modelled from the spec: `ObjectIdRoot` (lib.rs, not among the provided
sources). Per §2/§3, a root is a unique identity token owned by one render
target; only its identity is observable. -/
structure ObjectIdRoot where
  rootId : Nat
deriving DecidableEq, Repr

/-- Modelled from the spec: `ObjectId` (lib.rs, not among the provided
sources). Per §3, a root issues child ids; a batch records the id of the
target it was constructed against. -/
structure ObjectId where
  rootId : Nat
deriving DecidableEq, Repr

/-- Modelled from the spec: `ObjectIdRoot::make_id` issues a child id
scoped to this root. -/
def ObjectIdRoot.makeId (r : ObjectIdRoot) : ObjectId :=
  ⟨r.rootId⟩

/-- Modelled from the spec: `ObjectId::is_child_of` holds exactly when the
given root is the ancestor that issued this id (§3: "every per-frame
operation asserts the target's root is an ancestor of that recorded id"). -/
def ObjectId.isChildOf (i : ObjectId) (r : ObjectIdRoot) : Bool :=
  i.rootId == r.rootId

/-- A framebuffer built by `Framebuffer::start(render_pass).add(image).build()`:
it is bound to the image it was built from (`imageId`) and reports that
image's dimensions via `width()`/`height()`. `fbId` is the allocation
stamp. -/
structure Framebuffer where
  fbId : Nat
  imageId : Nat
  width : Nat
  height : Nat
deriving DecidableEq, Repr

/-- Modelled from the spec: `ImageFramebuffer` (lib.rs, not among the
provided sources; its shape is forced by the uses in src/batch/sprite.rs):
a cache entry pairing a weak reference to the image with the framebuffer
built from it (§3 RenderTargetCacheEntry). The weak reference is the
`Image` value; liveness comes from the oracle at upgrade time. -/
structure ImageFramebuffer where
  image : Image
  framebuffer : Framebuffer
deriving DecidableEq, Repr

/-- The resolution-dependent descriptor set built by `make_target_desc`:
a uniform buffer holding the target width/height, stamped with its
allocation. -/
structure TargetDesc where
  descId : Nat
  width : Nat
  height : Nat
deriving DecidableEq, Repr

/-- The `RenderTarget` trait object as `SpriteBatch` sees it: the current
image sequence and the identity root. -/
structure RenderTarget where
  images : List Image
  idRoot : ObjectIdRoot
deriving DecidableEq, Repr

/-- `SpriteBatch` state (src/batch/sprite.rs lines 25-31). Drawables are
opaque (`Box<Drawable2D>`), represented by tokens; `shared` is the
`Arc<SpriteBatchShared>` handle (pipelines/render pass), identity only. -/
structure SpriteBatch where
  shared : Nat
  sprites : List Nat
  framebuffers : List ImageFramebuffer
  targetId : ObjectId
  targetDesc : TargetDesc
deriving DecidableEq, Repr

/-- `FramebufferCreationError`: the source propagates the `OomError`
variant and sends every other variant to `unreachable!`. -/
inductive FramebufferCreationError where
  | OomError (e : OomError)
  | Other
deriving DecidableEq, Repr

/-- `command_buffer::BuildError`: the source propagates the `OomError`
variant and sends every other variant to `unreachable!`. -/
inductive BuildError where
  | OomError (e : OomError)
  | Other
deriving DecidableEq, Repr

/-- Result of a `SpriteBatch` operation returning
`Result<α, DeviceMemoryAllocError>`: `panic` stands for failed `assert!`,
out-of-bounds indexing, `unwrap` and `unreachable!`. -/
inductive BResult (α : Type) where
  | ok (a : α)
  | err (e : DeviceMemoryAllocError)
  | panic
deriving DecidableEq, Repr

/-- The sprite command buffer produced by `SpriteBatch::commands`: the
framebuffer the render pass was begun with and the tokens of the executed
per-sprite secondary buffers. -/
structure AutoCommandBuffer where
  framebuffer : Framebuffer
  commands : List Nat
deriving DecidableEq, Repr

/-- Per-call environment for `SpriteBatch::commands`: the weak-reference
liveness oracle and the outcome of each fallible construction, per call
site. `spriteResult s` is the outcome of `make_commands` for drawable `s`
(`none` = success, producing token `s`). -/
structure CommandsEnv where
  live : Nat → Bool
  fbBuild : Option FramebufferCreationError
  bufferData : Option DeviceMemoryAllocError
  cbAlloc : Option OomError
  spriteResult : Nat → Option OomError
  cbBuild : Option BuildError

/-- `SpriteBatch::make_target_desc` (src/batch/sprite.rs lines 77-95):
`ImmutableBuffer::from_data([width, height], ...)` may fail with
`DeviceMemoryAllocError` (oracle), otherwise yields the buffer's upload
future and a descriptor set built from it (whose construction is
`unwrap`ped, modelled as succeeding). The new descriptor is stamped from
the allocation counter. -/
def makeTargetDesc (oracle : Option DeviceMemoryAllocError) (width height alloc : Nat) :
    BResult ((TargetDesc × FutureChain) × Nat) :=
  match oracle with
  | some e => .err e
  | none => .ok ((⟨alloc, width, height⟩, .uploadTok alloc), alloc + 1)

/-- The sprite loop of `SpriteBatch::commands` (lines 145-154): each
drawable's `make_commands` either fails with `OomError` — propagated by `?`
as `DeviceMemoryAllocError::OomError` — or yields a secondary buffer that
is `execute_commands`ed into the primary one. -/
def execSprites (env : CommandsEnv) : List Nat → BResult (List Nat)
  | [] => .ok []
  | s :: rest =>
    match env.spriteResult s with
    | some e => .err (.OomError e)
    | none =>
      match execSprites env rest with
      | .ok cmds => .ok (s :: cmds)
      | .err e => .err e
      | .panic => .panic

/-- Command-buffer assembly of `SpriteBatch::commands` (lines 140-161):
`primary_one_time_submit` may fail with `OomError` (propagated by `?`),
`begin_render_pass`/`end_render_pass` are `unwrap`ped (modelled as
succeeding), the sprite loop runs, and the final `build()` propagates
`BuildError::OomError` and sends every other variant to `unreachable!`. -/
def buildCommandBuffer (env : CommandsEnv) (sprites : List Nat) (fb : Framebuffer) :
    BResult AutoCommandBuffer :=
  match env.cbAlloc with
  | some e => .err (.OomError e)
  | none =>
    match execSprites env sprites with
    | .err e => .err e
    | .panic => .panic
    | .ok cmds =>
      match env.cbBuild with
      | some (.OomError e) => .err (.OomError e)
      | some .Other => .panic
      | none => .ok ⟨fb, cmds⟩

/-- The cache-hit test of `SpriteBatch::commands` (lines 105-110): upgrade
the entry's weak image reference and keep it only if the resolved image is
`Arc::ptr_eq` to the image currently occupying the slot. -/
def hitTest (env : CommandsEnv) (entry : ImageFramebuffer) (cur : Image) : Bool :=
  match (if env.live entry.image.id then some entry.image else none) with
  | some oldImage => cur.id == oldImage.id
  | none => false

/-- `SpriteBatch::commands` (src/batch/sprite.rs lines 97-162). The result
carries the built command buffer, the optional descriptor-upload future,
the post-state of the batch and the allocation counter. Panics: the
`assert!` on target identity, indexing `self.framebuffers[image_num]`, and
indexing `target.images()[image_num]` (reached both through the identity
filter on a live upgrade and through the rebuild arm, so it is checked as
soon as the entry is). -/
def SpriteBatch.commands (b : SpriteBatch) (target : RenderTarget) (imageNum : Nat)
    (env : CommandsEnv) (alloc : Nat) :
    BResult ((AutoCommandBuffer × Option FutureChain) × SpriteBatch × Nat) :=
  if b.targetId.isChildOf target.idRoot then
    match b.framebuffers.get? imageNum with
    | none => .panic
    | some entry =>
      match target.images.get? imageNum with
      | none => .panic
      | some cur =>
        if hitTest env entry cur then
          match buildCommandBuffer env b.sprites entry.framebuffer with
          | .ok cb => .ok ((cb, none), b, alloc)
          | .err e => .err e
          | .panic => .panic
        else
          match env.fbBuild with
          | some (.OomError e) => .err (.OomError e)
          | some .Other => .panic
          | none =>
            let fb : Framebuffer := ⟨alloc, cur.id, cur.width, cur.height⟩
            let b1 : SpriteBatch :=
              { b with framebuffers := b.framebuffers.set imageNum ⟨cur, fb⟩ }
            match makeTargetDesc env.bufferData fb.width fb.height (alloc + 1) with
            | .err e => .err e
            | .panic => .panic
            | .ok ((desc, fut), alloc2) =>
              let b2 : SpriteBatch := { b1 with targetDesc := desc }
              match buildCommandBuffer env b2.sprites fb with
              | .ok cb => .ok ((cb, some fut), b2, alloc2)
              | .err e => .err e
              | .panic => .panic
  else .panic

/-- Environment for `SpriteBatch::new`: outcome of the uniform-buffer
upload and, per image index, of the framebuffer construction. -/
structure NewEnv where
  bufferData : Option DeviceMemoryAllocError
  fbBuildAt : Nat → Option FramebufferCreationError

/-- The framebuffer loop of `SpriteBatch::new` (lines 47-59): one
framebuffer per target image, in order, collected with short-circuit on the
first error; `FramebufferCreationError::OomError` is propagated, every
other variant hits `unreachable!`. -/
def buildFramebuffers (fbBuildAt : Nat → Option FramebufferCreationError) :
    List Image → Nat → Nat → BResult (List ImageFramebuffer × Nat)
  | [], _, alloc => .ok ([], alloc)
  | img :: rest, k, alloc =>
    match fbBuildAt k with
    | some (.OomError e) => .err (.OomError e)
    | some .Other => .panic
    | none =>
      match buildFramebuffers fbBuildAt rest (k + 1) (alloc + 1) with
      | .ok (fbs, alloc2) => .ok (⟨img, ⟨alloc, img.id, img.width, img.height⟩⟩ :: fbs, alloc2)
      | .err e => .err e
      | .panic => .panic

/-- `SpriteBatch::new` (src/batch/sprite.rs lines 33-71):
`target.images()[0].dimensions()` (panics on an empty image list), then the
target descriptor, then one framebuffer per image, then the batch with an
empty sprite list and a fresh id from the target's root. -/
def SpriteBatch.new (target : RenderTarget) (env : NewEnv) (sharedId alloc : Nat) :
    BResult ((SpriteBatch × FutureChain) × Nat) :=
  match target.images.get? 0 with
  | none => .panic
  | some img0 =>
    match makeTargetDesc env.bufferData img0.width img0.height alloc with
    | .err e => .err e
    | .panic => .panic
    | .ok ((desc, fut), alloc1) =>
      match buildFramebuffers env.fbBuildAt target.images 0 alloc1 with
      | .err e => .err e
      | .panic => .panic
      | .ok (fbs, alloc2) =>
        .ok ((⟨sharedId, [], fbs, target.idRoot.makeId, desc⟩, fut), alloc2)

/-! ### Helper lemmas -/

/-- `HashMap::remove` leaves no entry behind for the removed key. -/
theorem lookup_filter_self (t : ResizeTable) (wid : Nat) :
    List.lookup wid (List.filter (fun p => p.1 != wid) t) = none := by
  induction t with
  | nil => rfl
  | cons p rest ih =>
    obtain ⟨k, v⟩ := p
    by_cases hp : k = wid
    · simpa [List.filter_cons, hp] using ih
    · simp only [List.filter_cons]
      have hne : ((k, v).1 != wid) = true := by simp [hp]
      rw [if_pos hne, List.lookup_cons]
      have hbe : (wid == k) = false := by simp [Ne.symm hp]
      rw [hbe]
      exact ih

/-- The recreation step never touches the pending future chain. -/
theorem recreateStep_inr_previousFrameEnd (w : Window) (env : PresentEnv) (w1 : Window)
    (h : w.recreateStep env = .inr w1) :
    w1.previousFrameEnd = w.previousFrameEnd := by
  unfold Window.recreateStep at h
  split at h
  · split at h
    · cases h
    · split at h
      · cases h
      · split at h
        · cases h
        · cases h
        · cases h
          rfl
  · cases h
    rfl

/-- A successful framebuffer loop yields one cache entry per image. -/
theorem buildFramebuffers_ok_length (fbBuildAt : Nat → Option FramebufferCreationError) :
    ∀ (images : List Image) (k alloc : Nat) (fbs : List ImageFramebuffer) (alloc2 : Nat),
      buildFramebuffers fbBuildAt images k alloc = .ok (fbs, alloc2) →
      fbs.length = images.length := by
  intro images
  induction images with
  | nil =>
    intro k alloc fbs alloc2 h
    simp only [buildFramebuffers] at h
    cases h
    rfl
  | cons img rest ih =>
    intro k alloc fbs alloc2 h
    simp only [buildFramebuffers] at h
    split at h
    · cases h
    · cases h
    · split at h
      · rename_i fbs2 alloc3 heq
        cases h
        simp [ih _ _ _ _ heq]
      · cases h
      · cases h

/-- The primary command buffer is always begun on the framebuffer it was
given. -/
theorem buildCommandBuffer_ok_framebuffer (env : CommandsEnv) (sprites : List Nat)
    (fb : Framebuffer) (cb : AutoCommandBuffer)
    (h : buildCommandBuffer env sprites fb = .ok cb) :
    cb.framebuffer = fb := by
  unfold buildCommandBuffer at h
  split at h
  · cases h
  · split at h
    · cases h
    · cases h
    · split at h
      · cases h
      · cases h
      · cases h
        rfl

/-- When every drawable succeeds, the sprite loop succeeds and executes
them in insertion order. -/
theorem execSprites_all_ok (env : CommandsEnv) :
    ∀ sprites : List Nat, (∀ s ∈ sprites, env.spriteResult s = none) →
      execSprites env sprites = .ok sprites := by
  intro sprites
  induction sprites with
  | nil => intro _; rfl
  | cons s rest ih =>
    intro h
    have hs : env.spriteResult s = none := h s (by simp)
    have hrest := ih (fun x hx => h x (by simp [hx]))
    simp [execSprites, hs, hrest]

/-- The hit test succeeds exactly when the weak reference is live and the
resolved image is identical (by handle identity) to the current slot
image. -/
theorem hitTest_iff (env : CommandsEnv) (entry : ImageFramebuffer) (cur : Image) :
    hitTest env entry cur = true ↔
      (env.live entry.image.id = true ∧ cur.id = entry.image.id) := by
  unfold hitTest
  by_cases hl : env.live entry.image.id
  · simp [hl]
  · simp [hl]

/-- The identity assertion fires before anything else: a batch asked for a
target it does not descend from panics. -/
theorem commands_panic_of_not_child (b : SpriteBatch) (target : RenderTarget)
    (imageNum : Nat) (env : CommandsEnv) (alloc : Nat)
    (h : b.targetId.isChildOf target.idRoot = false) :
    b.commands target imageNum env alloc = .panic := by
  simp [SpriteBatch.commands, h]

/-- Master characterization of a successful `SpriteBatch::commands` call:
either the hit test succeeded and the cached framebuffer was returned with
no upload chain and no state change, or it failed and a fresh framebuffer
and fresh descriptor were built from the current slot image and stored. -/
theorem commands_ok_cases (b : SpriteBatch) (target : RenderTarget) (i : Nat)
    (env : CommandsEnv) (alloc : Nat) (cb : AutoCommandBuffer) (fut : Option FutureChain)
    (b2 : SpriteBatch) (alloc2 : Nat) (entry : ImageFramebuffer) (cur : Image)
    (hentry : b.framebuffers.get? i = some entry)
    (hcur : target.images.get? i = some cur)
    (hok : b.commands target i env alloc = .ok ((cb, fut), b2, alloc2)) :
    (hitTest env entry cur = true ∧ cb.framebuffer = entry.framebuffer ∧ fut = none ∧
       b2 = b ∧ alloc2 = alloc)
    ∨ (hitTest env entry cur = false ∧
       cb.framebuffer = ⟨alloc, cur.id, cur.width, cur.height⟩ ∧
       fut = some (.uploadTok (alloc + 1)) ∧
       b2 = { b with
                framebuffers := b.framebuffers.set i ⟨cur, ⟨alloc, cur.id, cur.width, cur.height⟩⟩,
                targetDesc := ⟨alloc + 1, cur.width, cur.height⟩ } ∧
       alloc2 = alloc + 2) := by
  by_cases hchild : b.targetId.isChildOf target.idRoot
  · unfold SpriteBatch.commands at hok
    rw [if_pos hchild] at hok
    split at hok
    · cases hok
    · rename_i entry1 hentry1
      rw [hentry] at hentry1
      injection hentry1 with hentry1
      subst hentry1
      split at hok
      · cases hok
      · rename_i cur1 hcur1
        rw [hcur] at hcur1
        injection hcur1 with hcur1
        subst hcur1
        by_cases hhit : hitTest env entry cur
        · left
          rw [if_pos hhit] at hok
          refine ⟨hhit, ?_⟩
          split at hok
          · rename_i cb1 hcb
            cases hok
            exact ⟨buildCommandBuffer_ok_framebuffer _ _ _ _ hcb, rfl, rfl, rfl⟩
          · cases hok
          · cases hok
        · right
          rw [if_neg hhit] at hok
          refine ⟨by simpa using hhit, ?_⟩
          split at hok
          · cases hok
          · cases hok
          · rename_i hfb
            dsimp only at hok
            split at hok
            · cases hok
            · cases hok
            · rename_i desc fut1 alloc3 hdesc
              unfold makeTargetDesc at hdesc
              split at hdesc
              · cases hdesc
              · cases hdesc
                split at hok
                · rename_i cb1 hcb
                  cases hok
                  exact ⟨buildCommandBuffer_ok_framebuffer _ _ _ _ hcb, rfl, rfl, rfl⟩
                · cases hok
                · cases hok
  · rw [commands_panic_of_not_child b target i env alloc (by simpa using hchild)] at hok
    cases hok

/-! ### Claim theorems -/

/-- C7: calling `SpriteBatch::commands` with a target whose identity root
is not an ancestor of the batch's recorded target id fails the `assert!`
on line 103 — the non-recoverable `InvalidTarget` contract violation —
before any other work; the panic outcome carries no post-state, so no
batch state (framebuffer cache, target descriptor, sprite list) is
mutated. -/
theorem C7_cross_target_guard (b : SpriteBatch) (target : RenderTarget)
    (imageNum : Nat) (env : CommandsEnv) (alloc : Nat)
    (h : b.targetId.isChildOf target.idRoot = false) :
    b.commands target imageNum env alloc = .panic :=
  commands_panic_of_not_child b target imageNum env alloc h

/-- Witness for C7 at a concrete input: a batch recorded against root 0,
asked for a target with root 1. -/
theorem C7_cross_target_guard_witness :
    (ObjectId.mk 0).isChildOf ⟨1⟩ = false ∧
    SpriteBatch.commands ⟨0, [], [], ⟨0⟩, ⟨0, 0, 0⟩⟩ ⟨[], ⟨1⟩⟩ 0
      ⟨fun _ => false, none, none, none, fun _ => none, none⟩ 0 = .panic :=
  ⟨rfl, C7_cross_target_guard _ _ 0 _ 0 rfl⟩

/-- C9: the framebuffer cache vector built by `SpriteBatch::new` has
exactly one entry per target image at construction time, and
`SpriteBatch::commands` indexes it with the caller-supplied slot index, so
any call with `image_num` at or beyond that construction-time length
panics (out-of-bounds `Vec` indexing) instead of rebuilding or returning
an error. -/
theorem C9_commands_out_of_range_panics :
    (∀ (target : RenderTarget) (env : NewEnv) (sharedId alloc : Nat) (b : SpriteBatch)
        (fut : FutureChain) (alloc2 : Nat),
        SpriteBatch.new target env sharedId alloc = .ok ((b, fut), alloc2) →
        b.framebuffers.length = target.images.length)
    ∧ (∀ (b : SpriteBatch) (target : RenderTarget) (imageNum : Nat) (env : CommandsEnv)
        (alloc : Nat), b.framebuffers.length ≤ imageNum →
        b.commands target imageNum env alloc = .panic) := by
  constructor
  · intro target env sharedId alloc b fut alloc2 h
    unfold SpriteBatch.new at h
    split at h
    · cases h
    · split at h
      · cases h
      · cases h
      · split at h
        · cases h
        · cases h
        · rename_i fbs alloc3 hfbs
          cases h
          exact buildFramebuffers_ok_length _ _ _ _ _ _ hfbs
  · intro b target imageNum env alloc hge
    by_cases hchild : b.targetId.isChildOf target.idRoot
    · have hnone : b.framebuffers.get? imageNum = none := List.get?_eq_none.mpr hge
      unfold SpriteBatch.commands
      rw [if_pos hchild, hnone]
    · exact commands_panic_of_not_child _ _ _ _ _ (by simpa using hchild)

/-- Witness for C9 at a concrete input: a batch whose cache has a single
entry, called with slot index 2. -/
theorem C9_commands_out_of_range_panics_witness :
    (SpriteBatch.mk 0 [] [⟨⟨0, 4, 4⟩, ⟨1, 0, 4, 4⟩⟩] ⟨0⟩ ⟨0, 4, 4⟩).framebuffers.length ≤ 2 ∧
    SpriteBatch.commands ⟨0, [], [⟨⟨0, 4, 4⟩, ⟨1, 0, 4, 4⟩⟩], ⟨0⟩, ⟨0, 4, 4⟩⟩
      ⟨[⟨0, 4, 4⟩], ⟨0⟩⟩ 2 ⟨fun _ => true, none, none, none, fun _ => none, none⟩ 0 = .panic :=
  ⟨by decide, C9_commands_out_of_range_panics.2 _ _ 2 _ 0 (by decide)⟩

/-- C10: `EventsLoop::poll_events` handles `Resized` by indexing the
resize-flag table with the event's window id (`resized[&window_id]`,
line 43), which panics when the id has no entry; in particular a `Closed`
event removes the entry, so a later `Resized` for the same window panics
rather than being ignored. -/
theorem C10_resized_without_entry_panics :
    (∀ (t : ResizeTable) (wid w h : Nat) (es : List WEvent),
        List.lookup wid t = none → pollEvents t (.resized wid w h :: es) = none)
    ∧ (∀ (t : ResizeTable) (wid w h : Nat) (es : List WEvent),
        pollEvents t (.closed wid :: .resized wid w h :: es) = none) := by
  constructor
  · intro t wid w h es hl
    simp [pollEvents, pollStep, hl]
  · intro t wid w h es
    simp [pollEvents, pollStep, lookup_filter_self]

/-- Witness for C10 at a concrete input: a table tracking window 3 only,
receiving a `Resized` event for window 7. -/
theorem C10_resized_without_entry_panics_witness :
    List.lookup 7 ([(3, false)] : ResizeTable) = none ∧
    pollEvents [(3, false)] [WEvent.resized 7 640 480] = none :=
  ⟨rfl, C10_resized_without_entry_panics.1 [(3, false)] 7 640 480 [] rfl⟩

/-- C2: each of the three transient device-stale conditions — swapchain
recreation failing with `UnsupportedDimensions`, acquisition reporting
`OutOfDate`, and present/flush finalization reporting `OutOfDate` — makes
`Window::present` set the resize flag and return `Ok(())`; none of them is
surfaced to the caller as an error. -/
theorem C2_transient_staleness_never_errors :
    (∀ (w : Window) (env : PresentEnv) (ce : Option (Nat × Nat)) (isz : Nat × Nat),
        w.resized = true → env.caps = some ce → env.innerSize = some isz →
        env.recreate (ce.getD isz) = .error .UnsupportedDimensions →
        w.present env = .ok { w with resized := true })
    ∧ (∀ (w : Window) (env : PresentEnv) (w1 : Window),
        w.recreateStep env = .inr w1 → env.acquire = .error .OutOfDate →
        w.present env = .ok { w1 with resized := true })
    ∧ (∀ (w : Window) (env : PresentEnv) (w1 : Window) (n : Nat) (af : FutureChain),
        w.recreateStep env = .inr w1 → env.acquire = .ok (n, af) →
        env.flushResult = some .OutOfDate →
        w.present env =
          .ok { (env.getCommands { w1 with previousFrameEnd := none } n
                   (incomingChain w1.previousFrameEnd af)).1 with resized := true }) := by
  refine ⟨?_, ?_, ?_⟩
  · intro w env ce isz hres hcaps hinner hrec
    unfold Window.present Window.recreateStep
    rw [if_pos hres, hcaps, hinner]
    dsimp only
    rw [hrec]
  · intro w env w1 hrec hacq
    unfold Window.present
    rw [hrec, hacq]
  · intro w env w1 n af hrec hacq hflush
    unfold Window.present
    rw [hrec, hacq, hflush]

/-- Witness for C2 at concrete inputs, one per transient condition. -/
theorem C2_transient_staleness_never_errors_witness :
    (Window.mk ⟨0⟩ [] none true).present
        ⟨some none, some (800, 600), fun _ => .error .UnsupportedDimensions,
          .error .Other, fun w _ f => (w, f), none⟩ = .ok ⟨⟨0⟩, [], none, true⟩ ∧
    (Window.mk ⟨0⟩ [] none false).present
        ⟨none, none, fun _ => .error .Other, .error .OutOfDate,
          fun w _ f => (w, f), none⟩ = .ok ⟨⟨0⟩, [], none, true⟩ ∧
    (Window.mk ⟨0⟩ [] (some (.external 5)) false).present
        ⟨none, none, fun _ => .error .Other, .ok (0, .acquireTok 0),
          fun w _ f => (w, f), some .OutOfDate⟩ = .ok ⟨⟨0⟩, [], none, true⟩ :=
  ⟨C2_transient_staleness_never_errors.1 _ _ none (800, 600) rfl rfl rfl rfl,
   C2_transient_staleness_never_errors.2.1 ⟨⟨0⟩, [], none, false⟩ _
     ⟨⟨0⟩, [], none, false⟩ rfl rfl,
   C2_transient_staleness_never_errors.2.2 ⟨⟨0⟩, [], some (.external 5), false⟩ _
     ⟨⟨0⟩, [], some (.external 5), false⟩ 0 (.acquireTok 0) rfl rfl rfl⟩

/-- C3: when acquisition reports `OutOfDate`, `present` returns `Ok(())`
having set the resize flag, and the stored pending chain
(`previous_frame_end`) is exactly what it was before the call — the early
return happens before the chain is taken. -/
theorem C3_acquire_out_of_date_preserves_chain (w : Window) (env : PresentEnv) (w1 : Window)
    (hrec : w.recreateStep env = .inr w1) (hacq : env.acquire = .error .OutOfDate) :
    ∃ w2, w.present env = .ok w2 ∧ w2.previousFrameEnd = w.previousFrameEnd ∧
      w2.resized = true := by
  refine ⟨{ w1 with resized := true }, ?_, ?_, rfl⟩
  · unfold Window.present
    rw [hrec, hacq]
  · simpa using recreateStep_inr_previousFrameEnd w env w1 hrec

/-- Witness for C3 at a concrete input: a pending chain is present and
survives the skipped frame unchanged. -/
theorem C3_acquire_out_of_date_preserves_chain_witness :
    (Window.mk ⟨0⟩ [] (some (.external 9)) false).recreateStep
        ⟨none, none, fun _ => .error .Other, .error .OutOfDate, fun w _ f => (w, f), none⟩
      = .inr ⟨⟨0⟩, [], some (.external 9), false⟩ ∧
    ∃ w2, (Window.mk ⟨0⟩ [] (some (.external 9)) false).present
        ⟨none, none, fun _ => .error .Other, .error .OutOfDate, fun w _ f => (w, f), none⟩
        = .ok w2 ∧
      w2.previousFrameEnd = (Window.mk ⟨0⟩ [] (some (.external 9)) false).previousFrameEnd ∧
      w2.resized = true :=
  ⟨rfl, C3_acquire_out_of_date_preserves_chain _ _ _ rfl rfl⟩

/-- Counterexample to C6 as stated: `get_commands` receives `&mut Window`
and may itself store a pending chain (here it calls `join_future`, which
the previous `take()` has left operating on `None`); when finalization then
reports `OutOfDate`, `present` still sets the resize flag, returns
`Ok(())` and discards the failed chain, but `previous_frame_end` is the
chain the closure stored — not `None`. -/
theorem C6_flush_out_of_date_counterexample :
    (Window.mk ⟨0⟩ [] none false).present
        ⟨none, none, fun _ => .error .Other, .ok (0, .acquireTok 3),
          fun wa _ f => (wa.joinFuture (.external 7), f), some .OutOfDate⟩
      = .ok ⟨⟨0⟩, [], some (.external 7), true⟩ ∧
    (Window.mk ⟨0⟩ [] (some (.external 7)) true).previousFrameEnd ≠ none := by
  exact ⟨by decide, by decide⟩

/-- C6 as amended: if finalization reports `OutOfDate` then `present` sets
the resize flag, returns `Ok(())`, and the failed chain is not stored;
`previous_frame_end` is `None` provided the `get_commands` closure does not
itself store a pending chain (the previous chain having been consumed this
frame). -/
theorem C6_flush_out_of_date_amended (w : Window) (env : PresentEnv) (w1 : Window)
    (n : Nat) (af : FutureChain)
    (hg : ∀ (wa : Window) (k : Nat) (f : FutureChain),
        wa.previousFrameEnd = none → ((env.getCommands wa k f).1).previousFrameEnd = none)
    (hrec : w.recreateStep env = .inr w1) (hacq : env.acquire = .ok (n, af))
    (hflush : env.flushResult = some .OutOfDate) :
    ∃ w2, w.present env = .ok w2 ∧ w2.resized = true ∧ w2.previousFrameEnd = none := by
  refine ⟨{ (env.getCommands { w1 with previousFrameEnd := none } n
      (incomingChain w1.previousFrameEnd af)).1 with resized := true }, ?_, rfl, ?_⟩
  · unfold Window.present
    rw [hrec, hacq, hflush]
  · simpa using hg { w1 with previousFrameEnd := none } n
      (incomingChain w1.previousFrameEnd af) rfl

/-- Witness for the amended C6 at a concrete input: a closure that only
builds commands (stores nothing) leaves no pending chain behind a dropped
frame. -/
theorem C6_flush_out_of_date_amended_witness :
    (∀ (wa : Window) (k : Nat) (f : FutureChain), wa.previousFrameEnd = none →
        ((((⟨none, none, fun _ => .error .Other, .ok (0, .acquireTok 3),
            fun wb _ f2 => (wb, f2), some .OutOfDate⟩ : PresentEnv)).getCommands
          wa k f).1).previousFrameEnd = none) ∧
    ∃ w2, (Window.mk ⟨0⟩ [] (some (.external 2)) false).present
        ⟨none, none, fun _ => .error .Other, .ok (0, .acquireTok 3),
          fun wb _ f2 => (wb, f2), some .OutOfDate⟩ = .ok w2 ∧
      w2.resized = true ∧ w2.previousFrameEnd = none :=
  ⟨fun _ _ _ h => h,
   C6_flush_out_of_date_amended ⟨⟨0⟩, [], some (.external 2), false⟩ _
     ⟨⟨0⟩, [], some (.external 2), false⟩ 0 (.acquireTok 3)
     (fun _ _ _ h => h) rfl rfl rfl⟩

/-- C1: a successful `SpriteBatch::commands` call always returns a
framebuffer built from the image currently occupying slot `i` of the
target's image sequence: the cached entry is reused exactly when its weak
reference resolves (is live) to an image identical by handle identity to
`target.images()[i]`, and otherwise a fresh framebuffer is built from
`target.images()[i]`. The hypothesis `hinv` is the cache invariant — the
entry's framebuffer was built from the entry's weak image — which
`SpriteBatch::new` establishes and every call preserves. -/
theorem C1_cache_identity_correctness (b : SpriteBatch) (target : RenderTarget) (i : Nat)
    (env : CommandsEnv) (alloc : Nat) (cb : AutoCommandBuffer) (fut : Option FutureChain)
    (b2 : SpriteBatch) (alloc2 : Nat) (entry : ImageFramebuffer) (cur : Image)
    (hentry : b.framebuffers.get? i = some entry)
    (hcur : target.images.get? i = some cur)
    (hinv : entry.framebuffer.imageId = entry.image.id)
    (hok : b.commands target i env alloc = .ok ((cb, fut), b2, alloc2)) :
    cb.framebuffer.imageId = cur.id ∧
    ((env.live entry.image.id = true ∧ cur.id = entry.image.id) →
        cb.framebuffer = entry.framebuffer ∧ fut = none) ∧
    (¬(env.live entry.image.id = true ∧ cur.id = entry.image.id) →
        cb.framebuffer = ⟨alloc, cur.id, cur.width, cur.height⟩ ∧
        fut = some (.uploadTok (alloc + 1))) := by
  rcases commands_ok_cases b target i env alloc cb fut b2 alloc2 entry cur hentry hcur hok with
    ⟨hhit, hfb, hfut, _, _⟩ | ⟨hhit, hfb, hfut, _, _⟩
  · have hc := (hitTest_iff env entry cur).mp hhit
    refine ⟨?_, fun _ => ⟨hfb, hfut⟩, fun hn => absurd hc hn⟩
    rw [hfb, hinv, hc.2]
  · have hc : ¬(env.live entry.image.id = true ∧ cur.id = entry.image.id) := by
      intro h
      rw [(hitTest_iff env entry cur).mpr h] at hhit
      cases hhit
    exact ⟨by rw [hfb], fun h => absurd h hc, fun _ => ⟨hfb, hfut⟩⟩

/-- Witness for C1 at a concrete input: a live, identity-matching cache
entry is reused (hit case). -/
theorem C1_cache_identity_correctness_witness :
    (SpriteBatch.mk 0 [] [⟨⟨2, 64, 64⟩, ⟨1, 2, 64, 64⟩⟩] ⟨0⟩ ⟨0, 64, 64⟩).framebuffers.get? 0
      = some ⟨⟨2, 64, 64⟩, ⟨1, 2, 64, 64⟩⟩ ∧
    (RenderTarget.mk [⟨2, 64, 64⟩] ⟨0⟩).images.get? 0 = some ⟨2, 64, 64⟩ ∧
    SpriteBatch.commands ⟨0, [], [⟨⟨2, 64, 64⟩, ⟨1, 2, 64, 64⟩⟩], ⟨0⟩, ⟨0, 64, 64⟩⟩
        ⟨[⟨2, 64, 64⟩], ⟨0⟩⟩ 0 ⟨fun _ => true, none, none, none, fun _ => none, none⟩ 10
      = .ok ((⟨⟨1, 2, 64, 64⟩, []⟩, none),
          ⟨0, [], [⟨⟨2, 64, 64⟩, ⟨1, 2, 64, 64⟩⟩], ⟨0⟩, ⟨0, 64, 64⟩⟩, 10) ∧
    (AutoCommandBuffer.mk ⟨1, 2, 64, 64⟩ []).framebuffer.imageId = (Image.mk 2 64 64).id :=
  ⟨rfl, rfl, by decide,
   (C1_cache_identity_correctness ⟨0, [], [⟨⟨2, 64, 64⟩, ⟨1, 2, 64, 64⟩⟩], ⟨0⟩, ⟨0, 64, 64⟩⟩
     ⟨[⟨2, 64, 64⟩], ⟨0⟩⟩ 0 ⟨fun _ => true, none, none, none, fun _ => none, none⟩ 10
     ⟨⟨1, 2, 64, 64⟩, []⟩ none ⟨0, [], [⟨⟨2, 64, 64⟩, ⟨1, 2, 64, 64⟩⟩], ⟨0⟩, ⟨0, 64, 64⟩⟩ 10
     ⟨⟨2, 64, 64⟩, ⟨1, 2, 64, 64⟩⟩ ⟨2, 64, 64⟩ rfl rfl rfl (by decide)).1⟩

/-- C5: if the image identity at slot `i` is unchanged between two
consecutive `SpriteBatch::commands` calls for slot `i` (and the image is
still alive, as it is while the target holds it), the second call returns
the framebuffer already cached for the slot, returns `None` as the upload
chain, allocates nothing new, and leaves the whole batch state — cache
entry and target descriptor — unchanged. -/
theorem C5_no_redundant_rebuild (b : SpriteBatch) (t1 t2 : RenderTarget) (i : Nat)
    (env1 env2 : CommandsEnv) (alloc : Nat)
    (cb1 cb2 : AutoCommandBuffer) (fut1 fut2 : Option FutureChain)
    (b1 b2 : SpriteBatch) (a1 a2 : Nat) (entry : ImageFramebuffer) (cur : Image)
    (hentry : b.framebuffers.get? i = some entry)
    (hcur1 : t1.images.get? i = some cur)
    (hcur2 : t2.images.get? i = some cur)
    (hlive : env2.live cur.id = true)
    (hok1 : b.commands t1 i env1 alloc = .ok ((cb1, fut1), b1, a1))
    (hok2 : b1.commands t2 i env2 a1 = .ok ((cb2, fut2), b2, a2)) :
    cb2.framebuffer = cb1.framebuffer ∧ fut2 = none ∧ b2 = b1 ∧ a2 = a1 := by
  rcases commands_ok_cases b t1 i env1 alloc cb1 fut1 b1 a1 entry cur hentry hcur1 hok1 with
    ⟨hhit1, hfb1, _, hb1, _⟩ | ⟨hhit1, hfb1, _, hb1, _⟩
  · have hc1 := (hitTest_iff env1 entry cur).mp hhit1
    have hentry1 : b1.framebuffers.get? i = some entry := by rw [hb1]; exact hentry
    have hhit2 : hitTest env2 entry cur = true :=
      (hitTest_iff env2 entry cur).mpr ⟨by rw [← hc1.2]; exact hlive, hc1.2⟩
    rcases commands_ok_cases b1 t2 i env2 a1 cb2 fut2 b2 a2 entry cur hentry1 hcur2 hok2 with
      ⟨_, hfb2, hfut2, hb2, ha2⟩ | ⟨hmiss2, _, _, _, _⟩
    · exact ⟨by rw [hfb2, hfb1], hfut2, hb2, ha2⟩
    · rw [hhit2] at hmiss2
      cases hmiss2
  · have hlt : i < b.framebuffers.length := by
      rcases List.get?_eq_some.mp hentry with ⟨hlt, _⟩
      exact hlt
    have hentry1 : b1.framebuffers.get? i
        = some ⟨cur, ⟨alloc, cur.id, cur.width, cur.height⟩⟩ := by
      rw [hb1]
      exact List.get?_set_eq_of_lt ⟨cur, ⟨alloc, cur.id, cur.width, cur.height⟩⟩ hlt
    have hhit2 : hitTest env2 ⟨cur, ⟨alloc, cur.id, cur.width, cur.height⟩⟩ cur = true :=
      (hitTest_iff env2 _ cur).mpr ⟨hlive, rfl⟩
    rcases commands_ok_cases b1 t2 i env2 a1 cb2 fut2 b2 a2 _ cur hentry1 hcur2 hok2 with
      ⟨_, hfb2, hfut2, hb2, ha2⟩ | ⟨hmiss2, _, _, _, _⟩
    · exact ⟨by rw [hfb2, hfb1], hfut2, hb2, ha2⟩
    · rw [hhit2] at hmiss2
      cases hmiss2

/-- Witness for C5 at a concrete input: a stale entry is rebuilt once, and
the immediately following call for the same slot is a pure cache hit. -/
theorem C5_no_redundant_rebuild_witness :
    SpriteBatch.commands ⟨0, [], [⟨⟨0, 32, 32⟩, ⟨1, 0, 32, 32⟩⟩], ⟨0⟩, ⟨2, 32, 32⟩⟩
        ⟨[⟨5, 32, 32⟩], ⟨0⟩⟩ 0 ⟨fun _ => false, none, none, none, fun _ => none, none⟩ 20
      = .ok ((⟨⟨20, 5, 32, 32⟩, []⟩, some (.uploadTok 21)),
          ⟨0, [], [⟨⟨5, 32, 32⟩, ⟨20, 5, 32, 32⟩⟩], ⟨0⟩, ⟨21, 32, 32⟩⟩, 22) ∧
    SpriteBatch.commands ⟨0, [], [⟨⟨5, 32, 32⟩, ⟨20, 5, 32, 32⟩⟩], ⟨0⟩, ⟨21, 32, 32⟩⟩
        ⟨[⟨5, 32, 32⟩], ⟨0⟩⟩ 0 ⟨fun _ => true, none, none, none, fun _ => none, none⟩ 22
      = .ok ((⟨⟨20, 5, 32, 32⟩, []⟩, none),
          ⟨0, [], [⟨⟨5, 32, 32⟩, ⟨20, 5, 32, 32⟩⟩], ⟨0⟩, ⟨21, 32, 32⟩⟩, 22) ∧
    (AutoCommandBuffer.mk ⟨20, 5, 32, 32⟩ []).framebuffer
      = (AutoCommandBuffer.mk ⟨20, 5, 32, 32⟩ []).framebuffer :=
  ⟨by decide, by decide,
   (C5_no_redundant_rebuild ⟨0, [], [⟨⟨0, 32, 32⟩, ⟨1, 0, 32, 32⟩⟩], ⟨0⟩, ⟨2, 32, 32⟩⟩
     ⟨[⟨5, 32, 32⟩], ⟨0⟩⟩ ⟨[⟨5, 32, 32⟩], ⟨0⟩⟩ 0
     ⟨fun _ => false, none, none, none, fun _ => none, none⟩
     ⟨fun _ => true, none, none, none, fun _ => none, none⟩ 20
     ⟨⟨20, 5, 32, 32⟩, []⟩ ⟨⟨20, 5, 32, 32⟩, []⟩ (some (.uploadTok 21)) none
     ⟨0, [], [⟨⟨5, 32, 32⟩, ⟨20, 5, 32, 32⟩⟩], ⟨0⟩, ⟨21, 32, 32⟩⟩
     ⟨0, [], [⟨⟨5, 32, 32⟩, ⟨20, 5, 32, 32⟩⟩], ⟨0⟩, ⟨21, 32, 32⟩⟩ 22 22
     ⟨⟨0, 32, 32⟩, ⟨1, 0, 32, 32⟩⟩ ⟨5, 32, 32⟩
     rfl rfl rfl rfl (by decide) (by decide)).1⟩

/-- Counterexample to C4 as stated: a cache miss whose freshly built
framebuffer has exactly the dimensions (100×100) that produced the existing
descriptor (`descId` 4) still rebuilds the descriptor (`descId` 8) and
produces an upload chain — the source (sprite.rs lines 111-136) rebuilds
unconditionally on every miss, with no dimension comparison. -/
theorem C4_descriptor_rebuild_counterexample :
    SpriteBatch.commands ⟨0, [], [⟨⟨0, 100, 100⟩, ⟨5, 0, 100, 100⟩⟩], ⟨3⟩, ⟨4, 100, 100⟩⟩
        ⟨[⟨1, 100, 100⟩], ⟨3⟩⟩ 0 ⟨fun _ => false, none, none, none, fun _ => none, none⟩ 7
      = .ok ((⟨⟨7, 1, 100, 100⟩, []⟩, some (.uploadTok 8)),
          ⟨0, [], [⟨⟨1, 100, 100⟩, ⟨7, 1, 100, 100⟩⟩], ⟨3⟩, ⟨8, 100, 100⟩⟩, 9) ∧
    (TargetDesc.mk 4 100 100).width = (Framebuffer.mk 7 1 100 100).width ∧
    (TargetDesc.mk 4 100 100).height = (Framebuffer.mk 7 1 100 100).height ∧
    (TargetDesc.mk 8 100 100) ≠ (TargetDesc.mk 4 100 100) :=
  ⟨by decide, rfl, rfl, by decide⟩

/-- C4 as amended: on a cache miss (weak reference dead, or image identity
mismatched for the slot) a successful `commands` call always rebuilds the
target descriptor from the new framebuffer's dimensions and always produces
an upload future chain, whether or not those dimensions differ from the
ones that produced the existing descriptor; the new weak reference and
framebuffer are stored. -/
theorem C4_amended_miss_always_rebuilds (b : SpriteBatch) (target : RenderTarget) (i : Nat)
    (env : CommandsEnv) (alloc : Nat) (cb : AutoCommandBuffer) (fut : Option FutureChain)
    (b2 : SpriteBatch) (alloc2 : Nat) (entry : ImageFramebuffer) (cur : Image)
    (hentry : b.framebuffers.get? i = some entry)
    (hcur : target.images.get? i = some cur)
    (hmiss : env.live entry.image.id = false ∨ cur.id ≠ entry.image.id)
    (hok : b.commands target i env alloc = .ok ((cb, fut), b2, alloc2)) :
    fut = some (.uploadTok (alloc + 1)) ∧
    b2.targetDesc = ⟨alloc + 1, cur.width, cur.height⟩ ∧
    b2.framebuffers = b.framebuffers.set i ⟨cur, ⟨alloc, cur.id, cur.width, cur.height⟩⟩ ∧
    cb.framebuffer = ⟨alloc, cur.id, cur.width, cur.height⟩ := by
  rcases commands_ok_cases b target i env alloc cb fut b2 alloc2 entry cur hentry hcur hok with
    ⟨hhit, _, _, _, _⟩ | ⟨_, hfb, hfut, hb2, _⟩
  · rcases (hitTest_iff env entry cur).mp hhit with ⟨hl, he⟩
    rcases hmiss with hm | hm
    · rw [hl] at hm
      cases hm
    · exact absurd he hm
  · subst hb2
    exact ⟨hfut, rfl, rfl, hfb⟩

/-- Witness for the amended C4 at a concrete input: a dead weak reference
with unchanged dimensions still triggers a full descriptor rebuild. -/
theorem C4_amended_miss_always_rebuilds_witness :
    (SpriteBatch.mk 0 [] [⟨⟨0, 100, 100⟩, ⟨5, 0, 100, 100⟩⟩] ⟨3⟩ ⟨4, 100, 100⟩).framebuffers.get? 0
      = some ⟨⟨0, 100, 100⟩, ⟨5, 0, 100, 100⟩⟩ ∧
    ((⟨fun _ => false, none, none, none, fun _ => none, none⟩ : CommandsEnv).live 0 = false) ∧
    (some (FutureChain.uploadTok 8) = some (FutureChain.uploadTok (7 + 1))) :=
  ⟨rfl, rfl,
   by
    have h := C4_amended_miss_always_rebuilds
      ⟨0, [], [⟨⟨0, 100, 100⟩, ⟨5, 0, 100, 100⟩⟩], ⟨3⟩, ⟨4, 100, 100⟩⟩
      ⟨[⟨1, 100, 100⟩], ⟨3⟩⟩ 0 ⟨fun _ => false, none, none, none, fun _ => none, none⟩ 7
      ⟨⟨7, 1, 100, 100⟩, []⟩ (some (.uploadTok 8))
      ⟨0, [], [⟨⟨1, 100, 100⟩, ⟨7, 1, 100, 100⟩⟩], ⟨3⟩, ⟨8, 100, 100⟩⟩ 9
      ⟨⟨0, 100, 100⟩, ⟨5, 0, 100, 100⟩⟩ ⟨1, 100, 100⟩
      rfl rfl (Or.inl rfl) (by decide)
    exact h.1⟩

/-- `primary_one_time_submit` failing with `OomError` aborts command-buffer
assembly with that error. -/
theorem buildCommandBuffer_cbAlloc_oom (env : CommandsEnv) (sprites : List Nat)
    (fb : Framebuffer) (e : OomError) (h : env.cbAlloc = some e) :
    buildCommandBuffer env sprites fb = .err (.OomError e) := by
  unfold buildCommandBuffer
  rw [h]

/-- With allocation and every drawable succeeding, command-buffer assembly
reduces to the final `build()` outcome. -/
theorem buildCommandBuffer_cbBuild_eq (env : CommandsEnv) (sprites : List Nat)
    (fb : Framebuffer) (hA : env.cbAlloc = none)
    (hsp : ∀ s ∈ sprites, env.spriteResult s = none) :
    buildCommandBuffer env sprites fb =
      (match env.cbBuild with
       | some (.OomError e) => .err (.OomError e)
       | some .Other => .panic
       | none => .ok ⟨fb, sprites⟩) := by
  unfold buildCommandBuffer
  rw [hA, execSprites_all_ok env sprites hsp]

/-- On a cache hit, `commands` reduces to command-buffer assembly over the
cached framebuffer. -/
theorem commands_hit_eq (b : SpriteBatch) (target : RenderTarget) (i : Nat)
    (env : CommandsEnv) (alloc : Nat) (entry : ImageFramebuffer) (cur : Image)
    (hchild : b.targetId.isChildOf target.idRoot = true)
    (hentry : b.framebuffers.get? i = some entry)
    (hcur : target.images.get? i = some cur)
    (hhit : hitTest env entry cur = true) :
    b.commands target i env alloc =
      (match buildCommandBuffer env b.sprites entry.framebuffer with
       | .ok cb => .ok ((cb, none), b, alloc)
       | .err e => .err e
       | .panic => .panic) := by
  unfold SpriteBatch.commands
  rw [if_pos hchild, hentry, hcur]
  dsimp only
  rw [if_pos hhit]

/-- On a cache miss whose framebuffer construction fails, `commands`
propagates the `OomError` variant and panics on any other variant. -/
theorem commands_miss_fbBuild_some (b : SpriteBatch) (target : RenderTarget) (i : Nat)
    (env : CommandsEnv) (alloc : Nat) (entry : ImageFramebuffer) (cur : Image)
    (fe : FramebufferCreationError)
    (hchild : b.targetId.isChildOf target.idRoot = true)
    (hentry : b.framebuffers.get? i = some entry)
    (hcur : target.images.get? i = some cur)
    (hmiss : hitTest env entry cur = false)
    (hfb : env.fbBuild = some fe) :
    b.commands target i env alloc =
      (match fe with
       | .OomError e => .err (.OomError e)
       | .Other => .panic) := by
  rcases fe with e | _ <;>
    (unfold SpriteBatch.commands
     rw [if_pos hchild, hentry, hcur]
     dsimp only
     rw [if_neg (by simp [hmiss]), hfb])

/-- When the first framebuffer construction of `SpriteBatch::new` fails,
`new` propagates the `OomError` variant and panics on any other variant. -/
theorem new_fbBuildAt0_some (target : RenderTarget) (env : NewEnv) (sharedId alloc : Nat)
    (img0 : Image) (rest : List Image) (fe : FramebufferCreationError)
    (himgs : target.images = img0 :: rest) (hbuf : env.bufferData = none)
    (hfb0 : env.fbBuildAt 0 = some fe) :
    SpriteBatch.new target env sharedId alloc =
      (match fe with
       | .OomError e => .err (.OomError e)
       | .Other => .panic) := by
  have hmtd : makeTargetDesc env.bufferData img0.width img0.height alloc
      = .ok ((⟨alloc, img0.width, img0.height⟩, .uploadTok alloc), alloc + 1) := by
    unfold makeTargetDesc
    rw [hbuf]
  rcases fe with e | _ <;>
    (unfold SpriteBatch.new
     rw [himgs]
     dsimp only [List.get?]
     rw [hmtd]
     dsimp only
     simp only [buildFramebuffers]
     rw [hfb0])

/-- C8: when framebuffer or command-buffer construction inside
`SpriteBatch::new` or `SpriteBatch::commands` fails with an out-of-memory
condition, that `OomError` is returned verbatim to the caller (wrapped as
the recoverable `DeviceMemoryAllocError::OomError` value by the `?`
conversion) with no retry — the functions are single-pass equations; every
other construction-error variant hits `unreachable!` (non-recoverable
abort). The seven conjuncts cover: framebuffer rebuild in `commands` (OOM /
other), primary command-buffer allocation (OOM), command-buffer `build()`
(OOM / other), and the framebuffer loop in `new` (OOM / other). -/
theorem C8_oom_returned_other_variants_abort :
    (∀ (b : SpriteBatch) (target : RenderTarget) (i : Nat) (env : CommandsEnv) (alloc : Nat)
        (entry : ImageFramebuffer) (cur : Image) (e : OomError),
        b.targetId.isChildOf target.idRoot = true →
        b.framebuffers.get? i = some entry → target.images.get? i = some cur →
        hitTest env entry cur = false → env.fbBuild = some (.OomError e) →
        b.commands target i env alloc = .err (.OomError e))
    ∧ (∀ (b : SpriteBatch) (target : RenderTarget) (i : Nat) (env : CommandsEnv) (alloc : Nat)
        (entry : ImageFramebuffer) (cur : Image),
        b.targetId.isChildOf target.idRoot = true →
        b.framebuffers.get? i = some entry → target.images.get? i = some cur →
        hitTest env entry cur = false → env.fbBuild = some .Other →
        b.commands target i env alloc = .panic)
    ∧ (∀ (b : SpriteBatch) (target : RenderTarget) (i : Nat) (env : CommandsEnv) (alloc : Nat)
        (entry : ImageFramebuffer) (cur : Image) (e : OomError),
        b.targetId.isChildOf target.idRoot = true →
        b.framebuffers.get? i = some entry → target.images.get? i = some cur →
        hitTest env entry cur = true → env.cbAlloc = some e →
        b.commands target i env alloc = .err (.OomError e))
    ∧ (∀ (b : SpriteBatch) (target : RenderTarget) (i : Nat) (env : CommandsEnv) (alloc : Nat)
        (entry : ImageFramebuffer) (cur : Image) (e : OomError),
        b.targetId.isChildOf target.idRoot = true →
        b.framebuffers.get? i = some entry → target.images.get? i = some cur →
        hitTest env entry cur = true → env.cbAlloc = none →
        (∀ s ∈ b.sprites, env.spriteResult s = none) →
        env.cbBuild = some (.OomError e) →
        b.commands target i env alloc = .err (.OomError e))
    ∧ (∀ (b : SpriteBatch) (target : RenderTarget) (i : Nat) (env : CommandsEnv) (alloc : Nat)
        (entry : ImageFramebuffer) (cur : Image),
        b.targetId.isChildOf target.idRoot = true →
        b.framebuffers.get? i = some entry → target.images.get? i = some cur →
        hitTest env entry cur = true → env.cbAlloc = none →
        (∀ s ∈ b.sprites, env.spriteResult s = none) →
        env.cbBuild = some .Other →
        b.commands target i env alloc = .panic)
    ∧ (∀ (target : RenderTarget) (env : NewEnv) (sharedId alloc : Nat)
        (img0 : Image) (rest : List Image) (e : OomError),
        target.images = img0 :: rest → env.bufferData = none →
        env.fbBuildAt 0 = some (.OomError e) →
        SpriteBatch.new target env sharedId alloc = .err (.OomError e))
    ∧ (∀ (target : RenderTarget) (env : NewEnv) (sharedId alloc : Nat)
        (img0 : Image) (rest : List Image),
        target.images = img0 :: rest → env.bufferData = none →
        env.fbBuildAt 0 = some .Other →
        SpriteBatch.new target env sharedId alloc = .panic) := by
  refine ⟨?_, ?_, ?_, ?_, ?_, ?_, ?_⟩
  · intro b target i env alloc entry cur e hchild hentry hcur hmiss hfb
    exact commands_miss_fbBuild_some b target i env alloc entry cur (.OomError e)
      hchild hentry hcur hmiss hfb
  · intro b target i env alloc entry cur hchild hentry hcur hmiss hfb
    exact commands_miss_fbBuild_some b target i env alloc entry cur .Other
      hchild hentry hcur hmiss hfb
  · intro b target i env alloc entry cur e hchild hentry hcur hhit hA
    rw [commands_hit_eq b target i env alloc entry cur hchild hentry hcur hhit,
      buildCommandBuffer_cbAlloc_oom env b.sprites entry.framebuffer e hA]
  · intro b target i env alloc entry cur e hchild hentry hcur hhit hA hsp hB
    rw [commands_hit_eq b target i env alloc entry cur hchild hentry hcur hhit,
      buildCommandBuffer_cbBuild_eq env b.sprites entry.framebuffer hA hsp, hB]
  · intro b target i env alloc entry cur hchild hentry hcur hhit hA hsp hB
    rw [commands_hit_eq b target i env alloc entry cur hchild hentry hcur hhit,
      buildCommandBuffer_cbBuild_eq env b.sprites entry.framebuffer hA hsp, hB]
  · intro target env sharedId alloc img0 rest e himgs hbuf hfb0
    exact new_fbBuildAt0_some target env sharedId alloc img0 rest (.OomError e)
      himgs hbuf hfb0
  · intro target env sharedId alloc img0 rest himgs hbuf hfb0
    exact new_fbBuildAt0_some target env sharedId alloc img0 rest .Other
      himgs hbuf hfb0

/-- Witness for C8 at concrete inputs: an OOM framebuffer rebuild is
returned verbatim, and a non-OOM construction failure in `new` panics. -/
theorem C8_oom_returned_other_variants_abort_witness :
    SpriteBatch.commands ⟨0, [], [⟨⟨0, 8, 8⟩, ⟨1, 0, 8, 8⟩⟩], ⟨0⟩, ⟨2, 8, 8⟩⟩
        ⟨[⟨3, 8, 8⟩], ⟨0⟩⟩ 0
        ⟨fun _ => false, some (.OomError .OutOfHostMemory), none, none, fun _ => none, none⟩ 0
      = .err (.OomError .OutOfHostMemory) ∧
    SpriteBatch.new ⟨[⟨3, 8, 8⟩], ⟨0⟩⟩ ⟨none, fun _ => some .Other⟩ 0 0 = .panic :=
  ⟨C8_oom_returned_other_variants_abort.1
     ⟨0, [], [⟨⟨0, 8, 8⟩, ⟨1, 0, 8, 8⟩⟩], ⟨0⟩, ⟨2, 8, 8⟩⟩ ⟨[⟨3, 8, 8⟩], ⟨0⟩⟩ 0
     ⟨fun _ => false, some (.OomError .OutOfHostMemory), none, none, fun _ => none, none⟩ 0
     ⟨⟨0, 8, 8⟩, ⟨1, 0, 8, 8⟩⟩ ⟨3, 8, 8⟩ .OutOfHostMemory rfl rfl rfl (by decide) rfl,
   C8_oom_returned_other_variants_abort.2.2.2.2.2.2
     ⟨[⟨3, 8, 8⟩], ⟨0⟩⟩ ⟨none, fun _ => some .Other⟩ 0 0 ⟨3, 8, 8⟩ [] rfl rfl rfl⟩

/-- Every entry built by the framebuffer loop pairs an image with a
framebuffer built from that image, so the cache invariant used in the
identity-correctness theorem holds from construction. -/
theorem buildFramebuffers_invariant (fbBuildAt : Nat → Option FramebufferCreationError) :
    ∀ (images : List Image) (k alloc : Nat) (fbs : List ImageFramebuffer) (alloc2 : Nat),
      buildFramebuffers fbBuildAt images k alloc = .ok (fbs, alloc2) →
      ∀ entry ∈ fbs, entry.framebuffer.imageId = entry.image.id := by
  intro images
  induction images with
  | nil =>
    intro k alloc fbs alloc2 h
    simp only [buildFramebuffers] at h
    cases h
    intro entry hmem
    cases hmem
  | cons img rest ih =>
    intro k alloc fbs alloc2 h
    simp only [buildFramebuffers] at h
    split at h
    · cases h
    · cases h
    · split at h
      · rename_i fbs2 alloc3 heq
        cases h
        intro entry hmem
        rcases List.mem_cons.mp hmem with hentry | hentry
        · rw [hentry]
        · exact ih _ _ _ _ heq entry hentry
      · cases h
      · cases h

/-- `SpriteBatch::new` establishes the cache invariant for every slot. -/
theorem new_establishes_invariant (target : RenderTarget) (env : NewEnv)
    (sharedId alloc : Nat) (b : SpriteBatch) (fut : FutureChain) (alloc2 : Nat)
    (h : SpriteBatch.new target env sharedId alloc = .ok ((b, fut), alloc2)) :
    ∀ entry ∈ b.framebuffers, entry.framebuffer.imageId = entry.image.id := by
  unfold SpriteBatch.new at h
  split at h
  · cases h
  · split at h
    · cases h
    · cases h
    · split at h
      · cases h
      · cases h
      · rename_i fbs alloc3 hfbs
        cases h
        exact buildFramebuffers_invariant _ _ _ _ _ _ hfbs

/-- Every successful `SpriteBatch::commands` call preserves the cache
invariant. -/
theorem commands_preserves_invariant (b : SpriteBatch) (target : RenderTarget) (i : Nat)
    (env : CommandsEnv) (alloc : Nat) (cb : AutoCommandBuffer) (fut : Option FutureChain)
    (b2 : SpriteBatch) (alloc2 : Nat) (entry : ImageFramebuffer) (cur : Image)
    (hentry : b.framebuffers.get? i = some entry)
    (hcur : target.images.get? i = some cur)
    (hinv : ∀ x ∈ b.framebuffers, x.framebuffer.imageId = x.image.id)
    (hok : b.commands target i env alloc = .ok ((cb, fut), b2, alloc2)) :
    ∀ x ∈ b2.framebuffers, x.framebuffer.imageId = x.image.id := by
  rcases commands_ok_cases b target i env alloc cb fut b2 alloc2 entry cur hentry hcur hok with
    ⟨_, _, _, hb2, _⟩ | ⟨_, _, _, hb2, _⟩
  · rw [hb2]
    exact hinv
  · rw [hb2]
    intro x hmem
    rcases List.mem_or_eq_of_mem_set hmem with hx | hx
    · exact hinv x hx
    · rw [hx]
